import Mathlib

/-!
# Verification of the crossplane/function-sdk-go request/response subsystem

This file shallowly embeds the parts of the function-sdk-go repository that
the spec's testable properties talk about:

* the schemaless document model (`map[string]any` as produced by Kubernetes
  JSON decoders and by `structpb.Struct.AsMap`), where a number is either a
  native 64-bit integer or a 64-bit float;
* the paved field accessor (`fieldpath.Paved`, an external collaborator of
  this repository, modelled from the spec);
* the composed/composite `Unstructured` wrappers (`resource/composed`,
  `resource/composite`): `GetInteger` with its dual-representation numeric
  coercion, reference-list setters, and `cleanupMetadata`;
* the struct/JSON transcoding bridge (`resource.AsObject`);
* the request extraction functions (`request.GetObservedComposedResources`,
  `GetDesiredComposedResources`, `GetCredentials`);
* the response bootstrap (`response.To`, in both its v1 and v1beta1 forms);
* the v1beta1→v1 schema-compatibility shim (`BetaServer.RunFunction`).

Machine integers are modelled as `Int` (no arithmetic near the 64-bit bound
occurs in the embedded code) and 64-bit floats as `ℚ` (the only float
operation the embedded code performs is truncation toward zero, which is
exact on the rationals that denote the floats involved).
-/

/-! ## Go errors

Go code in this repository passes `error` values around, wrapping them with
`errors.Wrap`/`errors.Errorf`.  We model the error values the embedded code
can produce as one inductive.  `wrapped` corresponds to `errors.Wrap(cause,
msg)`; the other constructors correspond to the `errors.Errorf` calls and the
collaborator errors the embedded code inspects or forwards.
-/

/-- A path segment of a fieldpath expression: an object field or a list
index. -/
inductive Seg where
  | field (name : String)
  | idx (i : Nat)
deriving DecidableEq, Repr

/-- A parsed fieldpath (e.g. `spec.widgets` is `[.field "spec",
.field "widgets"]`). -/
abbrev FPath := List Seg

/-- Go `error` values produced by the embedded code.  Errors that name a
fieldpath carry it; `wrapped msg cause` is `errors.Wrap(cause, msg)`. -/
inductive GErr where
  /-- `fieldpath`: a path segment was absent ("no such field"). -/
  | notFound (path : FPath)
  /-- `fieldpath`: a segment was present but of the wrong kind. -/
  | typeMismatch (path : FPath)
  /-- `"%s: not a (int64) number"` (from `fieldpath.Paved.GetInteger`). -/
  | notInt64 (path : FPath)
  /-- `"%s: not a (float64) number"` (from `getNumber` in composed.go). -/
  | notFloat64 (path : FPath)
  /-- `"%s: credential not found"` (from `request.GetCredentials`). -/
  | credNotFound (name : String)
  /-- `"%s: not a supported credential source"` (from
  `request.GetCredentials`). -/
  | credUnsupported
  /-- strict JSON decoding failure (`resource.AsObject` slow path). -/
  | decodeError (msg : String)
  /-- `errors.Wrap(cause, msg)`. -/
  | wrapped (msg : String) (cause : GErr)
  /-- any other error (e.g. one returned by a wrapped handler). -/
  | base (msg : String)
deriving DecidableEq, Repr

/-! ## The document model

A Go `map[string]any` as produced by Kubernetes JSON decoders: number values
are either `int64` (`GoValue.int`) or `float64` (`GoValue.float`).  Objects
are association lists (Go map iteration order is unspecified; none of the
verified properties depends on it). -/

/-- A value of a schemaless document (`any` inside `map[string]any`). -/
inductive GoValue where
  | null
  | bool (b : Bool)
  /-- a native 64-bit integer (`int64`). -/
  | int (i : Int)
  /-- a 64-bit float (`float64`), modelled exactly as a rational. -/
  | float (q : ℚ)
  | str (s : String)
  | arr (xs : List GoValue)
  | obj (fs : List (String × GoValue))

/-- Association-list lookup, modelling Go map indexing. -/
def lookupKey {α : Type} (k : String) : List (String × α) → Option α
  | [] => none
  | (k', v) :: rest => if k' = k then some v else lookupKey k rest

/-- Association-list removal, modelling Go `delete(m, k)`. -/
def eraseKey {α : Type} (k : String) : List (String × α) → List (String × α)
  | [] => []
  | (k', v) :: rest => if k' = k then eraseKey k rest else (k', v) :: eraseKey k rest

/-- Association-list in-place update of an existing key, modelling mutation
of the value stored under `k` in a Go map. -/
def setKey {α : Type} (k : String) (v : α) : List (String × α) → List (String × α)
  | [] => []
  | (k', v') :: rest => if k' = k then (k', v) :: setKey k v rest else (k', v') :: setKey k v rest

/-- Is this document value a number (in either of its two wire-dependent
representations)? -/
def GoValue.isNumber : GoValue → Bool
  | .int _ => true
  | .float _ => true
  | _ => false

/-- Go `int64(f)` for a `float64` `f`: truncation toward zero. -/
def truncTowardZero (q : ℚ) : Int :=
  if 0 ≤ q then ⌊q⌋ else ⌈q⌉

namespace Paved

/-- Modelled from the spec: `fieldpath.Paved.GetValue` (the paved field
accessor lives in crossplane-runtime, outside this repository).  Spec §4.1:
"fails with NotFound when any intermediate segment is absent; fails with
TypeMismatch when a segment expects a map but finds a non-map (or vice versa
for index segments)."  `orig` is the full requested path, named by the
errors. -/
def getValueAux (orig : FPath) : GoValue → List Seg → Except GErr GoValue
  | v, [] => .ok v
  | .obj fs, .field f :: rest =>
      match lookupKey f fs with
      | some v => getValueAux orig v rest
      | none => .error (.notFound orig)
  | .arr xs, .idx i :: rest =>
      match xs[i]? with
      | some v => getValueAux orig v rest
      | none => .error (.notFound orig)
  | _, .field _ :: _ => .error (.typeMismatch orig)
  | _, .idx _ :: _ => .error (.typeMismatch orig)

/-- Modelled from the spec: `fieldpath.Paved.GetValue`. -/
def getValue (doc : GoValue) (path : FPath) : Except GErr GoValue :=
  getValueAux path doc path

/-- Modelled from the spec: `fieldpath.Paved.GetInteger` — typed extraction
of a native `int64`, failing with a TypeMismatch (`"%s: not a (int64)
number"`) on a value of any other kind. -/
def getInteger (doc : GoValue) (path : FPath) : Except GErr Int :=
  match getValue doc path with
  | .error e => .error e
  | .ok (.int i) => .ok i
  | .ok _ => .error (.notInt64 path)

/-- Modelled from the spec: `fieldpath.Paved.SetValue` (spec §4.1: "creates
intermediate map levels as needed; fails if an intermediate segment already
holds a non-map, non-list value incompatible with the next segment"). -/
def setValueAux (orig : FPath) : GoValue → List Seg → GoValue → Except GErr GoValue
  | _, [], v => .ok v
  | .obj fs, .field f :: rest, v =>
      match lookupKey f fs with
      | some cur =>
          match setValueAux orig cur rest v with
          | .ok cur' => .ok (.obj (fs.map fun kv => if kv.1 = f then (f, cur') else kv))
          | .error e => .error e
      | none =>
          match setValueAux orig (.obj []) rest v with
          | .ok cur' => .ok (.obj (fs ++ [(f, cur')]))
          | .error e => .error e
  | .arr xs, .idx i :: rest, v =>
      match xs[i]? with
      | some cur =>
          match setValueAux orig cur rest v with
          | .ok cur' => .ok (.arr (xs.take i ++ cur' :: xs.drop (i + 1)))
          | .error e => .error e
      | none => .error (.notFound orig)
  | _, .field _ :: _, _ => .error (.typeMismatch orig)
  | _, .idx _ :: _, _ => .error (.typeMismatch orig)

/-- Modelled from the spec: `fieldpath.Paved.SetValue`. -/
def setValue (doc : GoValue) (path : FPath) (v : GoValue) : Except GErr GoValue :=
  setValueAux path doc path v

end Paved

/-! ## `resource/composed`: dual-representation `GetInteger`

Translated from `src/resource/composed/composed.go` (`Unstructured.GetInteger`
and `getNumber`); the composite variant in `src/unnamed/part_008` has the same
body. -/

namespace composed

/-- `composed.New()`: a fresh unstructured resource backed by an empty
document (`make(map[string]any)`). -/
def New : GoValue := .obj []

/-- `getNumber` from composed.go: `GetValue` then a `float64` type
assertion, failing with `"%s: not a (float64) number"`. -/
def getNumber (obj : GoValue) (path : FPath) : Except GErr ℚ :=
  match Paved.getValue obj path with
  | .error e => .error e
  | .ok (.float f) => .ok f
  | .ok _ => .error (.notFloat64 path)

/-- `Unstructured.GetInteger` from composed.go: try native `int64`
extraction first; on failure try `float64` extraction and truncate with
`int64(f64)`; if both fail return the original (integer-extraction)
error. -/
def GetInteger (obj : GoValue) (path : FPath) : Except GErr Int :=
  match Paved.getInteger obj path with
  | .ok i64 => .ok i64
  | .error err =>
      match getNumber obj path with
      | .ok f64 => .ok (truncTowardZero f64)
      | .error _ => .error err

/-- `cleanupMetadata` from composed.go: if the document has an object-valued
`metadata` key, delete its `generation` entry; if the metadata object is then
empty, delete the `metadata` key itself. -/
def cleanupMetadata (obj : List (String × GoValue)) : List (String × GoValue) :=
  match lookupKey "metadata" obj with
  | none => obj
  | some (.obj mo) =>
      let mo := eraseKey "generation" mo
      if mo.isEmpty then eraseKey "metadata" obj
      else setKey "metadata" (.obj mo) obj
  | some _ => obj

/-- The tail of `composed.From` for a typed (non-unstructured) input object:
the JSON round trip through go-json-experiment (external, honouring
`omitempty`) has produced `obj`; `From` then applies `cleanupMetadata` and
wraps the result as an unstructured composed resource. -/
def fromMarshaled (obj : List (String × GoValue)) : GoValue :=
  .obj (cleanupMetadata obj)

end composed

/-! ## `resource/composite` (`src/unnamed/part_008`): reference-list setters -/

namespace composite

/-- `composite.New()`: a fresh composite resource backed by an empty
document. -/
def New : GoValue := .obj []

/-- `corev1.ObjectReference`: all fields are strings (UID is a string type
in Kubernetes).  The Go zero value has every field empty. -/
structure ObjectReference where
  kind : String := ""
  ns : String := ""
  name : String := ""
  uid : String := ""
  apiVersion : String := ""
  resourceVersion : String := ""
  fieldPath : String := ""
deriving DecidableEq, Repr

/-- The zero-valued `corev1.ObjectReference{}`. -/
def emptyRef : ObjectReference := {}

/-- The filtering loop shared by `SetResourceReferences` and
`SetEnvironmentConfigReferences`: skip any reference equal to the zero
value.  (The Go code compares `ref.String() == empty.String()`; `String()`
prints every field, so this is structural equality.) -/
def filterEmptyRefs : List ObjectReference → List ObjectReference
  | [] => []
  | ref :: rest =>
      if ref = emptyRef then filterEmptyRefs rest
      else ref :: filterEmptyRefs rest

/-- How `fieldpath.SetValue` stores a typed `ObjectReference` in the
document: a JSON object with the reference's `omitempty`-tagged fields,
empty strings omitted. -/
def encodeRef (r : ObjectReference) : GoValue :=
  .obj
    ((if r.kind = "" then [] else [("kind", GoValue.str r.kind)]) ++
     (if r.ns = "" then [] else [("namespace", GoValue.str r.ns)]) ++
     (if r.name = "" then [] else [("name", GoValue.str r.name)]) ++
     (if r.uid = "" then [] else [("uid", GoValue.str r.uid)]) ++
     (if r.apiVersion = "" then [] else [("apiVersion", GoValue.str r.apiVersion)]) ++
     (if r.resourceVersion = "" then [] else [("resourceVersion", GoValue.str r.resourceVersion)]) ++
     (if r.fieldPath = "" then [] else [("fieldPath", GoValue.str r.fieldPath)]))

/-- `Unstructured.SetResourceReferences` from part_008: filter out zero
references, then `SetValue("spec.resourceRefs", filtered)` (the Go code
discards the `SetValue` error with `_ =`; on error the document is left as
it was). -/
def SetResourceReferences (xr : GoValue) (refs : List ObjectReference) : GoValue :=
  match Paved.setValue xr [.field "spec", .field "resourceRefs"]
      (.arr ((filterEmptyRefs refs).map encodeRef)) with
  | .ok xr' => xr'
  | .error _ => xr

/-- `Unstructured.SetEnvironmentConfigReferences` from part_008: the same
filtering loop, stored at `spec.environmentConfigRefs`. -/
def SetEnvironmentConfigReferences (xr : GoValue) (refs : List ObjectReference) : GoValue :=
  match Paved.setValue xr [.field "spec", .field "environmentConfigRefs"]
      (.arr ((filterEmptyRefs refs).map encodeRef)) with
  | .ok xr' => xr'
  | .error _ => xr

end composite

/-! ## `structpb`: the wire "generic structured value" representation

Every number in a `structpb.Struct` is a 64-bit float (`number_value`). -/

namespace structpb

/-- A `structpb.Value`. -/
inductive PValue where
  | nullV
  | boolV (b : Bool)
  /-- `number_value`: every number on the wire is a `float64`. -/
  | numV (q : ℚ)
  | strV (s : String)
  | listV (xs : List PValue)
  | structV (fs : List (String × PValue))

/-- A `structpb.Struct`. -/
structure Struct where
  fields : List (String × PValue) := []

mutual
/-- `structpb.Value.AsInterface`: convert a wire value to a plain Go value;
numbers come out as `float64`. -/
def PValue.toGo : PValue → GoValue
  | .nullV => .null
  | .boolV b => .bool b
  | .numV q => .float q
  | .strV s => .str s
  | .listV xs => .arr (PValue.listToGo xs)
  | .structV fs => .obj (PValue.fieldsToGo fs)

/-- `AsInterface` over a `ListValue`'s elements. -/
def PValue.listToGo : List PValue → List GoValue
  | [] => []
  | x :: xs => PValue.toGo x :: PValue.listToGo xs

/-- `AsInterface` over a `Struct`'s fields. -/
def PValue.fieldsToGo : List (String × PValue) → List (String × GoValue)
  | [] => []
  | (k, v) :: fs => (k, PValue.toGo v) :: PValue.fieldsToGo fs
end

/-- `structpb.Struct.AsMap`, nil-safe on its pointer receiver (a nil
`*structpb.Struct` has no fields). -/
def Struct.asMap (s : Option Struct) : List (String × GoValue) :=
  PValue.fieldsToGo ((s.map Struct.fields).getD [])

end structpb

/-! ## `resource/resource.go`: the struct/JSON transcoding bridge -/

namespace resource

/-- The `runtime.Object` targets `AsObject` distinguishes: a target that is
(or embeds) `*unstructured.Unstructured` exposes `SetUnstructuredContent`
and carries a raw document; any other target is a typed struct, abstracted
as the set of field names its type knows plus its decoded wire content
(modelled from the spec's description of strict decoding). -/
inductive KObject where
  | unstructured (content : GoValue)
  | typed (schema : List String) (fields : List (String × structpb.PValue))

/-- The document content of a target after decoding. -/
def KObject.content : KObject → GoValue
  | .unstructured c => c
  | .typed _ fs => .obj (structpb.PValue.fieldsToGo fs)

/-- The error message of the strict-decode failure branch of `AsObject`
(`errors.Wrapf(json.Unmarshal(..., json.RejectUnknownMembers(true)), ...)`). -/
def strictDecodeMsg : String := "cannot unmarshal JSON from *structpb.Struct into target"

/-- `AsObject` from resource/resource.go: if the target exposes
`SetUnstructuredContent`, copy `s.AsMap()` into it directly (no
serialization round trip) and return nil; otherwise serialize and
deserialize in strict mode.  The strict decoder (go-json-experiment with
`RejectUnknownMembers(true)`, external) is modelled from the spec: it fails
iff the wire struct carries a field the target type does not know. -/
def AsObject (s : Option structpb.Struct) (o : KObject) : Except GErr KObject :=
  match o with
  | .unstructured _ => .ok (.unstructured (.obj (structpb.Struct.asMap s)))
  | .typed schema _ =>
      let fs := (s.map structpb.Struct.fields).getD []
      if fs.all (fun kv => schema.contains kv.1) then .ok (.typed schema fs)
      else .error (.decodeError strictDecodeMsg)

/-- `resource.Ready`: tri-state readiness. -/
inductive Ready where
  | unspecified
  | rTrue
  | rFalse
deriving DecidableEq, Repr

/-- `resource.CredentialsType` (one supported variant: data). -/
inductive CredentialsType where
  | data
deriving DecidableEq, Repr

/-- `resource.Credentials`: credential data extracted from a request. -/
structure Credentials where
  type : CredentialsType := .data
  data : List (String × String) := []
deriving DecidableEq, Repr

/-- `resource.ObservedComposed`: an observed composed resource (document
plus connection details). -/
structure ObservedComposed where
  resource : GoValue
  connectionDetails : List (String × String)

/-- `resource.DesiredComposed`: a desired composed resource (document plus
readiness). -/
structure DesiredComposed where
  resource : GoValue
  ready : Ready

end resource

/-! ## The protocol messages

Nested message types are shared between the two schema versions in this
model (on the wire they are field-for-field identical); the top-level
request/response types are kept distinct per version, as the distinct
compiled Go types are. -/

namespace proto

/-- `Ready` wire enum (`READY_UNSPECIFIED`/`READY_TRUE`/`READY_FALSE`). -/
inductive ReadyEnum where
  | unspecified
  | rTrue
  | rFalse
deriving DecidableEq, Repr

/-- `Resource`: an observed or desired resource on the wire. -/
structure Resource where
  resource : Option structpb.Struct := none
  connectionDetails : Option (List (String × String)) := none
  ready : ReadyEnum := .unspecified

/-- `State`: composite plus named composed resources. -/
structure State where
  composite : Option Resource := none
  resources : List (String × Resource) := []

/-- `RequestMeta`: the request correlation tag. -/
structure RequestMeta where
  tag : String := ""

/-- `ResponseMeta`: the correlation tag plus cache TTL (nanoseconds). -/
structure ResponseMeta where
  tag : String := ""
  ttl : Option Int := none

/-- `Severity` of a result. -/
inductive Severity where
  | unspecified
  | fatal
  | warning
  | normal
deriving DecidableEq, Repr

/-- `Target` of a result or condition. -/
inductive Target where
  | unspecified
  | composite
  | compositeAndClaim
deriving DecidableEq, Repr

/-- `Result`: a diagnostic record. -/
structure Result where
  severity : Severity := .unspecified
  message : String := ""
  reason : Option String := none
  target : Option Target := none

/-- `Status` wire enum of a condition. -/
inductive ConditionStatus where
  | unspecified
  | statusTrue
  | statusFalse
  | statusUnknown
deriving DecidableEq, Repr

/-- `Condition` reported in a response. -/
structure Condition where
  ctype : String := ""
  status : ConditionStatus := .unspecified
  reason : String := ""
  message : Option String := none
  target : Option Target := none

/-- The `match_name`/`match_labels` oneof of a `ResourceSelector`. -/
inductive ResourceMatch where
  | matchName (n : String)
  | matchLabels (ls : List (String × String))

/-- `ResourceSelector` inside a requirements declaration. -/
structure ResourceSelector where
  apiVersion : String := ""
  kind : String := ""
  matchKind : Option ResourceMatch := none
  ns : Option String := none

/-- `Requirements` declared by a response. -/
structure Requirements where
  resources : List (String × ResourceSelector) := []

/-- `Resources`: one group of required-resource results. -/
structure Resources where
  items : List Resource := []

/-- `CredentialData`: the inline key→bytes credential variant. -/
structure CredentialData where
  data : List (String × String) := []

/-- The `source` oneof of `Credentials` (currently one variant). -/
inductive CredentialsSource where
  | credentialData (d : CredentialData)

/-- `Credentials` handed to a function by name. -/
structure Credentials where
  source : Option CredentialsSource := none

end proto

namespace v1

/-- The canonical-schema `v1.RunFunctionRequest`. -/
structure RunFunctionRequest where
  meta : Option proto.RequestMeta := none
  observed : Option proto.State := none
  desired : Option proto.State := none
  input : Option structpb.Struct := none
  context : Option structpb.Struct := none
  extraResources : List (String × proto.Resources) := []
  credentials : List (String × proto.Credentials) := []

/-- The canonical-schema `v1.RunFunctionResponse`. -/
structure RunFunctionResponse where
  meta : Option proto.ResponseMeta := none
  desired : Option proto.State := none
  results : List proto.Result := []
  context : Option structpb.Struct := none
  requirements : Option proto.Requirements := none
  conditions : List proto.Condition := []
  output : Option structpb.Struct := none

end v1

namespace v1beta1

/-- The legacy-schema `v1beta1.RunFunctionRequest` — field-for-field
identical to the v1 schema, but a distinct type. -/
structure RunFunctionRequest where
  meta : Option proto.RequestMeta := none
  observed : Option proto.State := none
  desired : Option proto.State := none
  input : Option structpb.Struct := none
  context : Option structpb.Struct := none
  extraResources : List (String × proto.Resources) := []
  credentials : List (String × proto.Credentials) := []

/-- The legacy-schema `v1beta1.RunFunctionResponse`. -/
structure RunFunctionResponse where
  meta : Option proto.ResponseMeta := none
  desired : Option proto.State := none
  results : List proto.Result := []
  context : Option structpb.Struct := none
  requirements : Option proto.Requirements := none
  conditions : List proto.Condition := []
  output : Option structpb.Struct := none

end v1beta1

/-- Nil-safe `GetResources()` on a possibly-nil `*State` (a nil state has no
resources). -/
def stateResources : Option proto.State → List (String × proto.Resource)
  | none => []
  | some s => s.resources

/-- Nil-safe `req.GetMeta().GetTag()`. -/
def metaTag : Option proto.RequestMeta → String
  | none => ""
  | some m => m.tag

/-! ## `request`: extraction functions

Translated from the v1 request package (`src/request/request_test.go`
carries the v1 source; `src/request/request.go` is the v1beta1 variant with
identical bodies). -/

namespace request

/-- Decode a composed resource's wire `Ready` enum
(the `switch r.GetReady()` in `GetDesiredComposedResources`). -/
def decodeReady : proto.ReadyEnum → resource.Ready
  | .unspecified => .unspecified
  | .rTrue => .rTrue
  | .rFalse => .rFalse

/-- The loop body of `GetObservedComposedResources`: for each named wire
resource, build an `ObservedComposed` backed by `composed.New()`
(connection details defaulted to an empty, non-nil map) and decode the wire
struct into it with `resource.AsObject`. -/
def observedComposedLoop :
    List (String × proto.Resource) → Except GErr (List (String × resource.ObservedComposed))
  | [] => .ok []
  | (name, r) :: rest =>
      let cds := r.connectionDetails.getD []
      match resource.AsObject r.resource (.unstructured composed.New) with
      | .error e => .error e
      | .ok o =>
          match observedComposedLoop rest with
          | .error e => .error e
          | .ok tail => .ok ((name, ⟨o.content, cds⟩) :: tail)

/-- The loop body of `GetDesiredComposedResources`. -/
def desiredComposedLoop :
    List (String × proto.Resource) → Except GErr (List (String × resource.DesiredComposed))
  | [] => .ok []
  | (name, r) :: rest =>
      match resource.AsObject r.resource (.unstructured composed.New) with
      | .error e => .error e
      | .ok o =>
          match desiredComposedLoop rest with
          | .error e => .error e
          | .ok tail => .ok ((name, ⟨o.content, decodeReady r.ready⟩) :: tail)

/-- `request.GetObservedComposedResources` (v1): starts from a non-nil empty
map (`map[resource.Name]resource.ObservedComposed{}`) and fills it from the
request's observed resources.  The `Option` on the result distinguishes a
nil Go map (`none`) from a non-nil one (`some`). -/
def GetObservedComposedResources (req : v1.RunFunctionRequest) :
    Except GErr (Option (List (String × resource.ObservedComposed))) :=
  match observedComposedLoop (stateResources req.observed) with
  | .error e => .error e
  | .ok ocds => .ok (some ocds)

/-- `request.GetDesiredComposedResources` (v1). -/
def GetDesiredComposedResources (req : v1.RunFunctionRequest) :
    Except GErr (Option (List (String × resource.DesiredComposed))) :=
  match desiredComposedLoop (stateResources req.desired) with
  | .error e => .error e
  | .ok dcds => .ok (some dcds)

/-- `request.GetObservedComposedResources` (v1beta1 variant from
`src/request/request.go`; identical body over the legacy request type). -/
def GetObservedComposedResourcesBeta (req : v1beta1.RunFunctionRequest) :
    Except GErr (Option (List (String × resource.ObservedComposed))) :=
  match observedComposedLoop (stateResources req.observed) with
  | .error e => .error e
  | .ok ocds => .ok (some ocds)

/-- `request.GetDesiredComposedResources` (v1beta1 variant). -/
def GetDesiredComposedResourcesBeta (req : v1beta1.RunFunctionRequest) :
    Except GErr (Option (List (String × resource.DesiredComposed))) :=
  match desiredComposedLoop (stateResources req.desired) with
  | .error e => .error e
  | .ok dcds => .ok (some dcds)

/-- `request.GetCredentials` (v1): look up the named credential; absent →
`"%s: credential not found"`; a source other than the `CredentialData`
variant (in the current schema, only an unset source) → `"%s: not a
supported credential source"`; otherwise return the inline data. -/
def GetCredentials (req : v1.RunFunctionRequest) (name : String) :
    Except GErr resource.Credentials :=
  match lookupKey name req.credentials with
  | none => .error (.credNotFound name)
  | some cred =>
      match cred.source with
      | some (.credentialData d) => .ok { type := .data, data := d.data }
      | none => .error .credUnsupported

end request

/-! ## `response`: bootstrap -/

namespace response

/-- `response.To` (v1, `src/response/response.go` lines 39–48): a response
pre-populated with the request's tag, the supplied TTL, the request's
desired state and the request's context. -/
def To (req : v1.RunFunctionRequest) (ttl : Int) : v1.RunFunctionResponse :=
  { meta := some { tag := metaTag req.meta, ttl := some ttl }
    desired := req.desired
    context := req.context }

/-- `response.To` (v1beta1 variant, `src/response/response.go` lines
180–188): sets only `Meta` (tag, TTL) and `Desired`; every other response
field — including `Context` — is left at its zero value. -/
def BetaTo (req : v1beta1.RunFunctionRequest) (ttl : Int) : v1beta1.RunFunctionResponse :=
  { meta := some { tag := metaTag req.meta, ttl := some ttl }
    desired := req.desired }

end response

/-! ## The v1beta1→v1 schema-compatibility shim (`BetaServer.RunFunction`) -/

namespace shim

/-- The byte-level wire form of a `RunFunctionRequest` (what `proto.Marshal`
encodes and `proto.Unmarshal` decodes; both schema versions share it
because their fields and wire tags are identical). -/
structure WireRequest where
  meta : Option proto.RequestMeta := none
  observed : Option proto.State := none
  desired : Option proto.State := none
  input : Option structpb.Struct := none
  context : Option structpb.Struct := none
  extraResources : List (String × proto.Resources) := []
  credentials : List (String × proto.Credentials) := []

/-- The byte-level wire form of a `RunFunctionResponse`. -/
structure WireResponse where
  meta : Option proto.ResponseMeta := none
  desired : Option proto.State := none
  results : List proto.Result := []
  context : Option structpb.Struct := none
  requirements : Option proto.Requirements := none
  conditions : List proto.Condition := []
  output : Option structpb.Struct := none

/-- `proto.Marshal` of a legacy request: field-for-field onto the wire. -/
def betaReqToWire (r : v1beta1.RunFunctionRequest) : WireRequest :=
  { meta := r.meta, observed := r.observed, desired := r.desired, input := r.input
    context := r.context, extraResources := r.extraResources, credentials := r.credentials }

/-- `proto.Unmarshal` of wire bytes into a canonical request. -/
def wireReqToV1 (w : WireRequest) : v1.RunFunctionRequest :=
  { meta := w.meta, observed := w.observed, desired := w.desired, input := w.input
    context := w.context, extraResources := w.extraResources, credentials := w.credentials }

/-- `proto.Marshal` of a canonical response onto the wire. -/
def v1RspToWire (r : v1.RunFunctionResponse) : WireResponse :=
  { meta := r.meta, desired := r.desired, results := r.results, context := r.context
    requirements := r.requirements, conditions := r.conditions, output := r.output }

/-- `proto.Unmarshal` of wire bytes into a legacy response. -/
def wireRspToBeta (w : WireResponse) : v1beta1.RunFunctionResponse :=
  { meta := w.meta, desired := w.desired, results := w.results, context := w.context
    requirements := w.requirements, conditions := w.conditions, output := w.output }

/-- The four protobuf transcoding steps `BetaServer.RunFunction` performs,
as fallible operations (the Go code checks each `error`). -/
structure BetaCodec where
  marshalBetaReq : v1beta1.RunFunctionRequest → Except GErr WireRequest
  unmarshalV1Req : WireRequest → Except GErr v1.RunFunctionRequest
  marshalV1Rsp : v1.RunFunctionResponse → Except GErr WireResponse
  unmarshalBetaRsp : WireResponse → Except GErr v1beta1.RunFunctionResponse

/-- The actual protobuf codec: because the two schemas are field-for-field
identical, every step succeeds and is a field-identity. -/
def protoCodec : BetaCodec :=
  { marshalBetaReq := fun r => .ok (betaReqToWire r)
    unmarshalV1Req := fun w => .ok (wireReqToV1 w)
    marshalV1Rsp := fun r => .ok (v1RspToWire r)
    unmarshalBetaRsp := fun w => .ok (wireRspToBeta w) }

/-- The spec's `transcode` on requests: encode the legacy request to wire
bytes, decode as canonical. -/
def transcodeReq (r : v1beta1.RunFunctionRequest) : v1.RunFunctionRequest :=
  wireReqToV1 (betaReqToWire r)

/-- The spec's `transcode` on responses. -/
def transcodeRsp (r : v1.RunFunctionResponse) : v1beta1.RunFunctionResponse :=
  wireRspToBeta (v1RspToWire r)

/-- `BetaServer.RunFunction` from `src/unnamed/part_000`: marshal the legacy
request, unmarshal it as canonical, invoke the wrapped handler, and on
success marshal/unmarshal the response back.  A handler error is returned
as-is ("intentionally not wrapped"); each transcoding failure is returned
wrapped with its own message. -/
def RunFunction (c : BetaCodec)
    (wrapped : v1.RunFunctionRequest → Except GErr v1.RunFunctionResponse)
    (req : v1beta1.RunFunctionRequest) : Except GErr v1beta1.RunFunctionResponse :=
  match c.marshalBetaReq req with
  | .error e => .error (.wrapped "cannot marshal v1beta1 RunFunctionRequest to protobuf bytes" e)
  | .ok b =>
      match c.unmarshalV1Req b with
      | .error e => .error (.wrapped "cannot unmarshal v1 RunFunctionRequest from v1beta1 protobuf bytes" e)
      | .ok gareq =>
          match wrapped gareq with
          | .error e => .error e
          | .ok garsp =>
              match c.marshalV1Rsp garsp with
              | .error e => .error (.wrapped "cannot marshal v1beta1 RunFunctionResponse to protobuf bytes" e)
              | .ok b2 =>
                  match c.unmarshalBetaRsp b2 with
                  | .error e => .error (.wrapped "cannot unmarshal v1 RunFunctionResponse from v1beta1 protobuf bytes" e)
                  | .ok rsp => .ok rsp

end shim

/-! ## Theorems -/

/-- Deleting a key removes it from lookup. -/
theorem lookupKey_eraseKey_self {α : Type} (k : String) (l : List (String × α)) :
    lookupKey k (eraseKey k l) = none := by
  induction l with
  | nil => rfl
  | cons kv rest ih =>
      obtain ⟨k', v⟩ := kv
      by_cases hk : k' = k <;> simp [eraseKey, lookupKey, hk, ih]

/-- Updating an existing key changes its looked-up value. -/
theorem lookupKey_setKey_self {α : Type} (k : String) (v : α) (l : List (String × α)) (w : α)
    (h : lookupKey k l = some w) : lookupKey k (setKey k v l) = some v := by
  induction l with
  | nil => simp [lookupKey] at h
  | cons kv rest ih =>
      obtain ⟨k', v'⟩ := kv
      by_cases hk : k' = k <;> simp_all [lookupKey, setKey, hk]

/-- A wrapped error is never the error it wraps (wrapping is visible). -/
theorem gerr_wrapped_ne (m : String) (e : GErr) : GErr.wrapped m e ≠ e := by
  intro h
  have hs := congrArg sizeOf h
  simp at hs

/-- C1: `GetInteger` follows the dual-representation coercion policy: a
native 64-bit integer at the path is returned unchanged; a 64-bit float is
truncated toward zero; a present non-numeric value yields the TypeMismatch
error naming the path (`"%s: not a (int64) number"`); an absent path yields
NotFound. -/
theorem getInteger_coercion_policy (obj : GoValue) (path : FPath) :
    (∀ i : Int, Paved.getValue obj path = .ok (.int i) →
      composed.GetInteger obj path = .ok i) ∧
    (∀ q : ℚ, Paved.getValue obj path = .ok (.float q) →
      composed.GetInteger obj path = .ok (truncTowardZero q)) ∧
    (∀ v : GoValue, Paved.getValue obj path = .ok v → v.isNumber = false →
      composed.GetInteger obj path = .error (.notInt64 path)) ∧
    (Paved.getValue obj path = .error (.notFound path) →
      composed.GetInteger obj path = .error (.notFound path)) := by
  refine ⟨fun i h => ?_, fun q h => ?_, fun v h hv => ?_, fun h => ?_⟩
  · simp [composed.GetInteger, Paved.getInteger, h]
  · simp [composed.GetInteger, Paved.getInteger, composed.getNumber, h]
  · cases v <;> simp_all [composed.GetInteger, Paved.getInteger, composed.getNumber,
      GoValue.isNumber]
  · simp [composed.GetInteger, Paved.getInteger, composed.getNumber, h]

/-- Witness for C1 on the spec's examples: a float-backed 9.001 truncates to
9, 10e3 to 10000, -9.9 to -9; a native integer 9001 is returned unchanged; a
string fails with the TypeMismatch naming the path; an absent path fails
with NotFound. -/
theorem getInteger_coercion_policy_witness :
    composed.GetInteger
        (.obj [("spec", .obj [("widgets", .float (9001 / 1000))])])
        [.field "spec", .field "widgets"] = .ok (truncTowardZero (9001 / 1000)) ∧
    truncTowardZero (9001 / 1000) = 9 ∧
    composed.GetInteger (.obj [("a", .float 10000)]) [.field "a"]
      = .ok (truncTowardZero 10000) ∧
    truncTowardZero 10000 = 10000 ∧
    composed.GetInteger (.obj [("a", .float (-99 / 10))]) [.field "a"]
      = .ok (truncTowardZero (-99 / 10)) ∧
    truncTowardZero (-99 / 10) = -9 ∧
    composed.GetInteger (.obj [("a", .int 9001)]) [.field "a"] = .ok 9001 ∧
    composed.GetInteger (.obj [("a", .str "foo")]) [.field "a"]
      = .error (.notInt64 [.field "a"]) ∧
    composed.GetInteger (.obj [("a", .int 1)]) [.field "b"]
      = .error (.notFound [.field "b"]) :=
  ⟨(getInteger_coercion_policy _ _).2.1 _ rfl,
   by norm_num [truncTowardZero],
   (getInteger_coercion_policy (.obj [("a", .float 10000)]) [.field "a"]).2.1 _ rfl,
   by norm_num [truncTowardZero],
   (getInteger_coercion_policy (.obj [("a", .float (-99 / 10))]) [.field "a"]).2.1 _ rfl,
   by rw [truncTowardZero]; norm_num [Int.ceil_eq_iff],
   (getInteger_coercion_policy (.obj [("a", .int 9001)]) [.field "a"]).1 _ rfl,
   (getInteger_coercion_policy (.obj [("a", .str "foo")]) [.field "a"]).2.2.1 _ rfl rfl,
   (getInteger_coercion_policy (.obj [("a", .int 1)]) [.field "b"]).2.2.2 rfl⟩

/-- C4 counterexample: the v1beta1 `To` does not forward the request's
pipeline context — on a legacy request whose context is present, the
response's context is nil, not the request's context. -/
theorem to_beta_context_counterexample :
    (response.BetaTo { context := some { fields := [] } } 60).context
      ≠ ({ context := some { fields := [] } } : v1beta1.RunFunctionRequest).context := by
  simp [response.BetaTo]

/-- C4 (amended): both `To` functions pre-populate the response with the
request's correlation tag, the supplied TTL and the request's desired state
unchanged; the v1 `To` additionally forwards the request's pipeline
context, while the v1beta1 `To` leaves the response context unset. -/
theorem to_prepopulates_response (vreq : v1.RunFunctionRequest)
    (breq : v1beta1.RunFunctionRequest) (ttl : Int) :
    (response.To vreq ttl).meta = some { tag := metaTag vreq.meta, ttl := some ttl } ∧
    (response.To vreq ttl).desired = vreq.desired ∧
    (response.To vreq ttl).context = vreq.context ∧
    (response.BetaTo breq ttl).meta = some { tag := metaTag breq.meta, ttl := some ttl } ∧
    (response.BetaTo breq ttl).desired = breq.desired ∧
    (response.BetaTo breq ttl).context = none :=
  ⟨rfl, rfl, rfl, rfl, rfl, rfl⟩

/-- C5: on a request whose observed (respectively desired) state contains no
composed resources — including the entirely empty request —
`GetObservedComposedResources` (respectively `GetDesiredComposedResources`)
returns a nil error and a non-nil empty mapping (`some []`, never the nil
map `none`); this holds for both the v1 and the v1beta1 variant. -/
theorem composed_resources_non_nil (vreq : v1.RunFunctionRequest)
    (breq : v1beta1.RunFunctionRequest) :
    (stateResources vreq.observed = [] →
      request.GetObservedComposedResources vreq = .ok (some [])) ∧
    (stateResources vreq.desired = [] →
      request.GetDesiredComposedResources vreq = .ok (some [])) ∧
    (stateResources breq.observed = [] →
      request.GetObservedComposedResourcesBeta breq = .ok (some [])) ∧
    (stateResources breq.desired = [] →
      request.GetDesiredComposedResourcesBeta breq = .ok (some [])) := by
  refine ⟨fun h => ?_, fun h => ?_, fun h => ?_, fun h => ?_⟩ <;>
    simp [request.GetObservedComposedResources, request.GetDesiredComposedResources,
      request.GetObservedComposedResourcesBeta, request.GetDesiredComposedResourcesBeta,
      request.observedComposedLoop, request.desiredComposedLoop, h]

/-- Witness for C5: the entirely empty request yields `.ok (some [])` from
all four extraction functions. -/
theorem composed_resources_non_nil_witness :
    request.GetObservedComposedResources {} = .ok (some []) ∧
    request.GetDesiredComposedResources {} = .ok (some []) ∧
    request.GetObservedComposedResourcesBeta {} = .ok (some []) ∧
    request.GetDesiredComposedResourcesBeta {} = .ok (some []) :=
  ⟨(composed_resources_non_nil {} {}).1 rfl,
   (composed_resources_non_nil {} {}).2.1 rfl,
   (composed_resources_non_nil {} {}).2.2.1 rfl,
   (composed_resources_non_nil {} {}).2.2.2 rfl⟩

/-- C9: `GetCredentials` fails with the not-found error when no credential
of the given name is present, fails with the unsupported-source error when
the named credential's source is not the inline credential-data variant
(in the current schema the only such source is an unset one), and otherwise
returns the credential's data. -/
theorem get_credentials_spec (req : v1.RunFunctionRequest) (name : String) :
    (lookupKey name req.credentials = none →
      request.GetCredentials req name = .error (.credNotFound name)) ∧
    (∀ cred : proto.Credentials, lookupKey name req.credentials = some cred →
      cred.source = none →
      request.GetCredentials req name = .error .credUnsupported) ∧
    (∀ (cred : proto.Credentials) (d : proto.CredentialData),
      lookupKey name req.credentials = some cred →
      cred.source = some (.credentialData d) →
      request.GetCredentials req name = .ok { type := .data, data := d.data }) := by
  refine ⟨fun h => ?_, fun cred h hs => ?_, fun cred d h hs => ?_⟩
  · simp [request.GetCredentials, h]
  · simp [request.GetCredentials, h, hs]
  · simp [request.GetCredentials, h, hs]

/-- Witness for C9: a request with one inline-data credential and one
credential with no source. -/
theorem get_credentials_spec_witness :
    request.GetCredentials
        { credentials := [("db", { source := some (.credentialData { data := [("user", "u")] }) }),
                          ("odd", { source := none })] } "db"
      = .ok { type := .data, data := [("user", "u")] } ∧
    request.GetCredentials
        { credentials := [("db", { source := some (.credentialData { data := [("user", "u")] }) }),
                          ("odd", { source := none })] } "odd"
      = .error .credUnsupported ∧
    request.GetCredentials
        { credentials := [("db", { source := some (.credentialData { data := [("user", "u")] }) }),
                          ("odd", { source := none })] } "nope"
      = .error (.credNotFound "nope") :=
  ⟨(get_credentials_spec _ "db").2.2 _ _ rfl rfl,
   (get_credentials_spec _ "odd").2.1 _ rfl rfl,
   (get_credentials_spec _ "nope").1 rfl⟩

/-- C10: for a target that exposes `SetUnstructuredContent` (the
document-backed composite/composed `Unstructured` types), `AsObject` takes
the fast path: it always returns a nil error — the decode-error branch is
unreachable — and the target's content afterwards is the wire struct
converted to a plain map (`s.AsMap()`). -/
theorem as_object_unstructured_fast_path (s : Option structpb.Struct) (content : GoValue) :
    resource.AsObject s (.unstructured content)
        = .ok (.unstructured (.obj (structpb.Struct.asMap s))) ∧
    ∀ e : GErr, resource.AsObject s (.unstructured content) ≠ .error e := by
  refine ⟨rfl, fun e => ?_⟩
  simp [resource.AsObject]

/-- C8: for a typed (non-document-backed) target, `AsObject` decodes in
strict mode: if the wire struct carries a field unknown to the target type
it fails with the decode error (never silently dropping the field);
otherwise the target is populated with the struct's content. -/
theorem as_object_typed_strict (s : structpb.Struct) (schema : List String)
    (fs0 : List (String × structpb.PValue)) :
    ((∀ kv ∈ s.fields, kv.1 ∈ schema) →
      resource.AsObject (some s) (.typed schema fs0) = .ok (.typed schema s.fields)) ∧
    ((∃ kv ∈ s.fields, kv.1 ∉ schema) →
      resource.AsObject (some s) (.typed schema fs0)
        = .error (.decodeError resource.strictDecodeMsg)) := by
  constructor
  · intro h
    have hall : (s.fields.all fun kv => schema.contains kv.1) = true := by
      rw [List.all_eq_true]
      intro kv hkv
      simpa using h kv hkv
    simp only [resource.AsObject, Option.map_some', Option.getD_some]
    rw [if_pos hall]
  · rintro ⟨kv, hmem, hout⟩
    have hall : ¬ (s.fields.all fun kv => schema.contains kv.1) = true := by
      rw [List.all_eq_true]
      push_neg
      refine ⟨kv, hmem, ?_⟩
      simpa using hout
    simp only [resource.AsObject, Option.map_some', Option.getD_some]
    rw [if_neg hall]

/-- Witness for C8: decoding a struct with the unknown field `unknwn` into a
target knowing only `apiVersion`/`kind` fails with the decode error, while
a struct with only known fields populates the target. -/
theorem as_object_typed_strict_witness :
    resource.AsObject (some { fields := [("kind", .strV "Bucket"), ("unknwn", .numV 1)] })
        (.typed ["apiVersion", "kind"] [])
      = .error (.decodeError resource.strictDecodeMsg) ∧
    resource.AsObject (some { fields := [("kind", .strV "Bucket")] })
        (.typed ["apiVersion", "kind"] [])
      = .ok (.typed ["apiVersion", "kind"] [("kind", .strV "Bucket")]) :=
  ⟨(as_object_typed_strict { fields := [("kind", .strV "Bucket"), ("unknwn", .numV 1)] }
      ["apiVersion", "kind"] []).2 ⟨("unknwn", .numV 1), by simp, by simp⟩,
   (as_object_typed_strict { fields := [("kind", .strV "Bucket")] }
      ["apiVersion", "kind"] []).1 (by simp)⟩

/-- C6: `SetResourceReferences` and `SetEnvironmentConfigReferences` store
only the references that are not all-zero-valued, preserving the relative
order of the kept entries: the filtering loop equals `List.filter
(· ≠ zero)`, and what ends up stored under the respective fieldpath is
exactly the encoded filtered list. -/
theorem set_references_filter_zero (refs : List composite.ObjectReference) :
    composite.filterEmptyRefs refs
        = refs.filter (fun r => decide (r ≠ composite.emptyRef)) ∧
    Paved.getValue (composite.SetResourceReferences composite.New refs)
        [.field "spec", .field "resourceRefs"]
      = .ok (.arr ((refs.filter (fun r => decide (r ≠ composite.emptyRef))).map
          composite.encodeRef)) ∧
    Paved.getValue (composite.SetEnvironmentConfigReferences composite.New refs)
        [.field "spec", .field "environmentConfigRefs"]
      = .ok (.arr ((refs.filter (fun r => decide (r ≠ composite.emptyRef))).map
          composite.encodeRef)) := by
  have hf : composite.filterEmptyRefs refs
      = refs.filter (fun r => decide (r ≠ composite.emptyRef)) := by
    induction refs with
    | nil => rfl
    | cons r rest ih =>
        by_cases hr : r = composite.emptyRef <;>
          simp [composite.filterEmptyRefs, hr, ih]
  refine ⟨hf, ?_, ?_⟩ <;>
    simp [composite.SetResourceReferences, composite.SetEnvironmentConfigReferences,
      composite.New, Paved.setValue, Paved.setValueAux, lookupKey,
      Paved.getValue, Paved.getValueAux, hf]

/-- C7: `cleanupMetadata` (the metadata normalization step of
`composed.From`) removes the `generation` entry from an object-valued
metadata block, and removes the `metadata` key altogether when the block is
then empty — so a document whose metadata holds nothing but a zero-valued
generation counter ends up with no metadata key at all. -/
theorem cleanup_metadata_normalizes (obj mo : List (String × GoValue))
    (h : lookupKey "metadata" obj = some (.obj mo)) :
    lookupKey "metadata" (composed.cleanupMetadata obj)
      = (if (eraseKey "generation" mo).isEmpty then none
         else some (.obj (eraseKey "generation" mo))) := by
  rw [composed.cleanupMetadata, h]
  by_cases he : (eraseKey "generation" mo).isEmpty
  · simp [he, lookupKey_eraseKey_self]
  · simp [he, lookupKey_setKey_self "metadata" (GoValue.obj (eraseKey "generation" mo)) obj _ h]

/-- Witness for C7: an object whose metadata holds only a zero-valued
generation counter produces a document with no `metadata` key at all. -/
theorem cleanup_metadata_normalizes_witness :
    lookupKey "metadata"
        (composed.cleanupMetadata [("metadata", .obj [("generation", .int 0)])]) = none := by
  simpa [eraseKey] using
    cleanup_metadata_normalizes [("metadata", .obj [("generation", .int 0)])]
      [("generation", .int 0)] rfl

/-- C2: for every wrapped v1 handler and every legacy request, when the
handler succeeds the shim satisfies
`RunFunction(R) = transcode(H(transcode(R)))`: the legacy request is
encoded to wire form, decoded as the canonical request, handed to the
handler, and the handler's response is encoded and decoded back into the
legacy response type. -/
theorem beta_server_transcodes
    (H : v1.RunFunctionRequest → Except GErr v1.RunFunctionResponse)
    (req : v1beta1.RunFunctionRequest) (rsp : v1.RunFunctionResponse)
    (h : H (shim.transcodeReq req) = .ok rsp) :
    shim.RunFunction shim.protoCodec H req = .ok (shim.transcodeRsp rsp) := by
  unfold shim.transcodeReq at h
  simp [shim.RunFunction, shim.protoCodec, shim.transcodeRsp, h]

/-- Witness for C2: a concrete handler that reports one fatal result,
applied through the shim to a concrete legacy request. -/
theorem beta_server_transcodes_witness :
    shim.RunFunction shim.protoCodec
        (fun _ => .ok { results := [{ severity := .fatal, message := "boom" }] })
        { meta := some { tag := "t" } }
      = .ok (shim.transcodeRsp { results := [{ severity := .fatal, message := "boom" }] }) :=
  beta_server_transcodes _ _ _ rfl

/-- C3: when the wrapped handler returns an error, the shim returns exactly
that error, unwrapped and with no added context; a failure of one of the
shim's own transcoding steps, by contrast, is returned as a distinct
wrapped error. -/
theorem beta_server_error_passthrough (c : shim.BetaCodec)
    (H : v1.RunFunctionRequest → Except GErr v1.RunFunctionResponse)
    (req : v1beta1.RunFunctionRequest) (e : GErr) :
    (H (shim.transcodeReq req) = .error e →
      shim.RunFunction shim.protoCodec H req = .error e) ∧
    (c.marshalBetaReq req = .error e →
      shim.RunFunction c H req
        = .error (.wrapped "cannot marshal v1beta1 RunFunctionRequest to protobuf bytes" e) ∧
      GErr.wrapped "cannot marshal v1beta1 RunFunctionRequest to protobuf bytes" e ≠ e) := by
  constructor
  · intro h
    unfold shim.transcodeReq at h
    simp [shim.RunFunction, shim.protoCodec, h]
  · intro h
    exact ⟨by simp [shim.RunFunction, h], gerr_wrapped_ne _ e⟩

/-- Witness for C3: a handler failing with a concrete error is passed
through the shim unchanged. -/
theorem beta_server_error_passthrough_witness :
    shim.RunFunction shim.protoCodec (fun _ => .error (.base "boom")) {}
      = .error (.base "boom") :=
  (beta_server_error_passthrough shim.protoCodec
    (fun _ => .error (.base "boom")) {} (.base "boom")).1 rfl
